import Mathlib

/-!
Verification of the devops-portal auth SDK (Go) against its specification.

The development shallowly embeds the SDK's core logic:
* the permission matcher of `gin_middleware.go`
  (`checkPermission`, `matchesWildcardPermission`, and the any-of loop of
  `RequireAnyPermission`);
* the auth client of the unnamed client file
  (`ValidateToken`, `ValidateTokenWithDynamicAuth`, `CheckUserStatus`,
  `CheckForceLogout`, `GetUserDynamicPermissions`).

External library calls that are not part of this repository are abstracted as
oracle parameters carried by the `Client` structure:
* `jwt.ParseWithClaims` together with its key function becomes
  `jwtParse : String → Except String (Claims × Bool)` (claims plus the
  `token.Valid` flag; the `*Claims` type assertion in the source always
  succeeds because the parse is seeded with `&Claims{}`);
* the textual phase of `encoding/json.Unmarshal` becomes
  `jsonParse : String → Option Json` returning a JSON tree; the shape
  handling the repository performs on top of `map[string]interface{}` is
  translated faithfully below;
* `json.Unmarshal` into the `UserStatus` struct is abstracted whole as
  `unmarshalUserStatus : String → Option UserStatus`, since all of its shape
  handling lives inside the standard library.

The Redis client is modelled as a function from key to reply, where a reply is
a value, the `redis.Nil` sentinel (key absent), or a connection/timeout error.
-/

deriving instance DecidableEq for Except

namespace AuthSDK

/-- JSON tree produced by `encoding/json` when decoding into
`map[string]interface{}` / `[]interface{}`.  Numbers are carried as `Int`:
no code path of the repository reads a numeric JSON value, only the
string/non-string distinction matters. -/
inductive Json where
  | null
  | boolean (b : Bool)
  | num (n : Int)
  | str (s : String)
  | arr (elems : List Json)
  | obj (fields : List (String × Json))

/-! ## Permission matcher (`gin_middleware.go`) -/

/-- Auxiliary recursion for `stringsSplit`: walk the character list, cutting at
each separator; `acc` holds the current piece reversed. -/
def splitSepAux (sep : Char) : List Char → List Char → List (List Char)
  | [], acc => [acc.reverse]
  | c :: cs, acc =>
    if c = sep then acc.reverse :: splitSepAux sep cs []
    else splitSepAux sep cs (c :: acc)

/-- Go `strings.Split(s, sep)` for a one-character separator (the source only
ever splits on `":"`).  Splitting the empty string yields `[""]`, as in Go. -/
def stringsSplit (s : String) (sep : Char) : List String :=
  (splitSepAux sep s.data []).map fun cs => ⟨cs⟩

/-- `matchesWildcardPermission` from `gin_middleware.go`: a held permission
containing a wildcard matches the required permission iff both split on `:`
into the same number of segments and every held segment is `*` or equal to the
corresponding required segment.  `strings.Contains(userPerm, "*")` is the
one-character containment test. -/
def matchesWildcardPermission (userPerm requiredPerm : String) : Bool :=
  if !(userPerm.data.contains '*') then
    false
  else
    let userParts := stringsSplit userPerm ':'
    let requiredParts := stringsSplit requiredPerm ':'
    if userParts.length != requiredParts.length then
      false
    else
      (userParts.zip requiredParts).all fun p => p.1 == "*" || p.1 == p.2

/-- `checkPermission` from `gin_middleware.go`: exact match, universal
wildcards `*` / `*:*:*`, or segment-wise wildcard match, first hit wins. -/
def checkPermission (userPermissions : List String) (requiredPermission : String) : Bool :=
  userPermissions.any fun perm =>
    perm == requiredPermission || perm == "*" || perm == "*:*:*" ||
      matchesWildcardPermission perm requiredPermission

/-- The permission loop of `RequireAnyPermission` in `gin_middleware.go`:
true iff some required permission passes `checkPermission` against the held
set (the spec's `matches_any`). -/
def matchesAny (userPerms : List String) (permissions : List String) : Bool :=
  permissions.any fun requiredPerm => checkPermission userPerms requiredPerm

/-- Specification-side matching relation, transcribed from §4.4 of the spec:
exact equality, a universal wildcard, or a segment-wise wildcard match of
equal segment count. -/
def SpecMatches (held : List String) (required : String) : Prop :=
  ∃ p ∈ held, p = required ∨ p = "*" ∨ p = "*:*:*" ∨
    (p.data.contains '*' = true ∧
     (stringsSplit p ':').length = (stringsSplit required ':').length ∧
     ∀ pr ∈ (stringsSplit p ':').zip (stringsSplit required ':'), pr.1 = "*" ∨ pr.1 = pr.2)

theorem matchesWildcardPermission_iff (u r : String) :
    matchesWildcardPermission u r = true ↔
      (u.data.contains '*' = true ∧
       (stringsSplit u ':').length = (stringsSplit r ':').length ∧
       ∀ pr ∈ (stringsSplit u ':').zip (stringsSplit r ':'), pr.1 = "*" ∨ pr.1 = pr.2) := by
  unfold matchesWildcardPermission
  by_cases hc : u.data.contains '*'
  · by_cases hl : (stringsSplit u ':').length = (stringsSplit r ':').length
    · simp [hc, hl, List.all_eq_true]
    · simp [hc, hl]
  · simp [hc]

theorem checkPermission_iff (held : List String) (required : String) :
    checkPermission held required = true ↔ SpecMatches held required := by
  unfold checkPermission SpecMatches
  rw [List.any_eq_true]
  constructor
  · rintro ⟨p, hp, hcond⟩
    refine ⟨p, hp, ?_⟩
    simp only [Bool.or_eq_true, beq_iff_eq] at hcond
    rcases hcond with ((h1 | h2) | h3) | h4
    · exact Or.inl h1
    · exact Or.inr (Or.inl h2)
    · exact Or.inr (Or.inr (Or.inl h3))
    · exact Or.inr (Or.inr (Or.inr ((matchesWildcardPermission_iff p required).mp h4)))
  · rintro ⟨p, hp, hcond⟩
    refine ⟨p, hp, ?_⟩
    simp only [Bool.or_eq_true, beq_iff_eq]
    rcases hcond with h1 | h2 | h3 | h4
    · exact Or.inl (Or.inl (Or.inl h1))
    · exact Or.inl (Or.inl (Or.inr h2))
    · exact Or.inl (Or.inr h3)
    · exact Or.inr ((matchesWildcardPermission_iff p required).mpr h4)

/-! ## Auth client data model -/

/-- `Claims` from the client file: the custom fields in source order, followed
by the parts of `jwt.RegisteredClaims` the SDK reads (`Issuer`, `IssuedAt`
as a unix-seconds instant via `IssuedAt.Unix()`, and `ID`). -/
structure Claims where
  userID : String
  username : String
  email : String
  roles : List String
  permissions : List String
  tokenType : String
  issuer : String
  issuedAtUnix : Int
  id : String
deriving DecidableEq, Repr

/-- `AuthResult` from the client file. -/
structure AuthResult where
  claims : Claims
  dynamicPermissions : List String
  isActive : Bool
  shouldForceLogout : Bool
deriving DecidableEq, Repr

/-- `UserStatus` from the client file.  The `UpdatedAt` field is decoded by
the abstracted `json.Unmarshal` and never read by any SDK code path, so only
`IsActive` is carried. -/
structure UserStatus where
  isActive : Bool
deriving DecidableEq, Repr

/-- The part of `Config` the verification logic reads (`Issuer`); the
remaining fields configure I/O plumbing (key path, Redis address/credentials,
logger) that the embedded logic never consults. -/
structure Config where
  issuer : String
deriving DecidableEq, Repr

/-- Reply of `redisClient.Get(ctx, key).Result()`: a value, the `redis.Nil`
sentinel for an absent key, or a connection/timeout error. -/
inductive RedisReply where
  | found (val : String)
  | nil
  | err (e : String)
deriving DecidableEq, Repr

/-- The Redis store as seen through `Get`: one reply per key. -/
structure Store where
  get : String → RedisReply

/-- `Client` from the client file: configuration, the Redis client, and the
external-library oracles described in the header. -/
structure Client where
  config : Config
  store : Store
  jwtParse : String → Except String (Claims × Bool)
  jsonParse : String → Option Json
  unmarshalUserStatus : String → Option UserStatus

/-! ## Auth client operations -/

/-- `strings.TrimPrefix(tokenString, "Bearer ")` as called by
`ValidateToken`: drop one leading `"Bearer "` if present, else return the
string unchanged. -/
def stripBearer (s : String) : String :=
  if "Bearer ".data.isPrefixOf s.data then ⟨s.data.drop "Bearer ".data.length⟩ else s

/-- `ValidateToken`: strip a `Bearer ` prefix, parse and verify the token
(signature, algorithm family and standard validity checks live inside the
parse oracle, as in the source's `jwt.ParseWithClaims` plus key function,
whose `token.Valid` flag is the returned `Bool`), then require the issuer
claim to equal the configured issuer exactly. -/
def ValidateToken (c : Client) (tokenString : String) : Except String Claims :=
  match c.jwtParse (stripBearer tokenString) with
  | .error e => .error ("failed to parse token: " ++ e)
  | .ok (claims, valid) =>
    if valid = false then .error "invalid token claims"
    else if claims.issuer ≠ c.config.issuer then .error "invalid token issuer"
    else .ok claims

/-- `CheckUserStatus`: read `user:status:{userID}`; absent key defaults to
active with no error; a store error or an undecodable value reports the error
alongside the fail-open `true`; a decoded value yields its `IsActive`. -/
def CheckUserStatus (c : Client) (userID : String) : Bool × Option String :=
  match c.store.get ("user:status:" ++ userID) with
  | .nil => (true, none)
  | .err e => (true, some e)
  | .found val =>
    match c.unmarshalUserStatus val with
    | none => (true, some "failed to parse user status")
    | some status => (status.isActive, none)

/-- `strconv.ParseInt(s, 10, 64)` as an `Option`: optional sign, at least one
digit, all characters decimal digits, result within the int64 range. -/
def goParseInt64 (s : String) : Option Int :=
  match s.data with
  | [] => none
  | c :: rest =>
    let neg := c = '-'
    let ds := if c = '-' ∨ c = '+' then rest else c :: rest
    if ds = [] then none
    else if ds.all (fun d => d.isDigit) = false then none
    else
      let n : Nat := ds.foldl (fun a d => a * 10 + (d.toNat - 48)) 0
      let v : Int := if neg then -(n : Int) else (n : Int)
      if v < -(2 ^ 63) ∨ 2 ^ 63 - 1 < v then none else some v

/-- `CheckForceLogout`: read `user:force_logout:{userID}`; absent key means no
marker (`false`, no error); a store error or unparsable timestamp reports the
error alongside `false`; a parsed marker compares strictly against the
token's issued-at instant. -/
def CheckForceLogout (c : Client) (userID : String) (tokenIssuedAt : Int) : Bool × Option String :=
  match c.store.get ("user:force_logout:" ++ userID) with
  | .nil => (false, none)
  | .err e => (false, some e)
  | .found val =>
    match goParseInt64 val with
    | none => (false, some "failed to parse force logout timestamp")
    | some ts => (decide (ts > tokenIssuedAt), none)

/-- The `perm.(string)` assertion in `GetUserDynamicPermissions`' loop:
a string element is kept, any non-string element leaves the slice slot at its
zero value `""`. -/
def goStringOrEmpty (v : Json) : String :=
  match v with
  | .str s => s
  | _ => ""

/-- Lookup in a decoded `map[string]interface{}`: with duplicate JSON object
keys the later value wins, as in `encoding/json`. -/
def lookupLast (fields : List (String × Json)) (key : String) : Option Json :=
  fields.reverse.lookup key

/-- `json.Unmarshal` of a JSON tree into `map[string]interface{}`: only a
top-level object succeeds, except that JSON `null` leaves the map `nil`
(here: empty) without error. -/
def jsonToMap (j : Json) : Option (List (String × Json)) :=
  match j with
  | .obj fields => some fields
  | .null => some []
  | _ => none

/-- `GetUserDynamicPermissions`: read `user:dynamic_permissions:{userID}`.
An absent key returns `(nil, nil)` in the source — no error and an empty
permission list.  A store error propagates; an undecodable value or a
missing/non-array `permissions` field is an error; otherwise the array is
mapped slot by slot, non-strings becoming `""`. -/
def GetUserDynamicPermissions (c : Client) (userID : String) : Except String (List String) :=
  match c.store.get ("user:dynamic_permissions:" ++ userID) with
  | .nil => .ok []
  | .err e => .error e
  | .found val =>
    match c.jsonParse val with
    | none => .error "failed to parse cached permissions"
    | some j =>
      match jsonToMap j with
      | none => .error "failed to parse cached permissions"
      | some cacheData =>
        match lookupLast cacheData "permissions" with
        | some (.arr permissionsData) => .ok (permissionsData.map goStringOrEmpty)
        | _ => .error "invalid permissions format in cache"

/-- `ValidateTokenWithDynamicAuth`: verify the token (fatal on failure), then
resolve the three store-backed facts with their per-fact fallbacks exactly as
the source does: status errors default to active; an inactive account
short-circuits with the zero values (`DynamicPermissions = nil`,
`ShouldForceLogout = false`); force-logout errors default to `false`;
dynamic-permission errors fall back to the token's embedded permissions. -/
def ValidateTokenWithDynamicAuth (c : Client) (tokenString : String) :
    Except String AuthResult :=
  match ValidateToken c tokenString with
  | .error e => .error ("token validation failed: " ++ e)
  | .ok claims =>
    let st := CheckUserStatus c claims.userID
    let isActive := if st.2.isSome then true else st.1
    if isActive = false then
      .ok { claims := claims, dynamicPermissions := [], isActive := isActive,
            shouldForceLogout := false }
    else
      let fl := CheckForceLogout c claims.userID claims.issuedAtUnix
      let shouldForceLogout := if fl.2.isSome then false else fl.1
      let dynamicPermissions :=
        match GetUserDynamicPermissions c claims.userID with
        | .error _ => claims.permissions
        | .ok ps => ps
      .ok { claims := claims, dynamicPermissions := dynamicPermissions,
            isActive := isActive, shouldForceLogout := shouldForceLogout }

/-- The account-active value the resolver ends up using for a subject: the
status read with its error, if any, overridden to the fail-open `true`
(step 2 of `ValidateTokenWithDynamicAuth`). -/
def resolvedIsActive (c : Client) (userID : String) : Bool :=
  let st := CheckUserStatus c userID
  if st.2.isSome then true else st.1

/-- `true` on `Except.ok`, `false` on `Except.error`. -/
def exceptIsOk : Except String AuthResult → Bool
  | .ok _ => true
  | .error _ => false

/-- `true` on `Except.ok`, `false` on `Except.error` (claims variant). -/
def exceptClaimsIsOk : Except String Claims → Bool
  | .ok _ => true
  | .error _ => false

/-! ## Concrete fixtures

A concrete client instantiating the external-library oracles, used to
evaluate the embedded operations on explicit inputs. -/

/-- Claims of a demonstration token: issued at unix second 100 with embedded
permissions `["a:b:c"]` by the configured issuer. -/
def demoClaims : Claims :=
  { userID := "u1", username := "alice", email := "alice@example.com",
    roles := ["dev"], permissions := ["a:b:c"], tokenType := "access",
    issuer := "auth-service", issuedAtUnix := 100, id := "tid1" }

/-- Demonstration configuration. -/
def demoConfig : Config := { issuer := "auth-service" }

/-- Claims as `demoClaims` but issued by a different service. -/
def demoClaimsBadIssuer : Claims := { demoClaims with issuer := "other-service" }

/-- Parse oracle: the string `"x"` is the demo token, `"y"` a token with a
wrong issuer; every other string is malformed.  In particular a string
containing a space (such as `"Bearer x"`) never parses, as with a real JWT
compact serialization. -/
def demoJwtParse : String → Except String (Claims × Bool) :=
  fun s =>
    if s = "x" then .ok (demoClaims, true)
    else if s = "y" then .ok (demoClaimsBadIssuer, true)
    else .error "token contains an invalid number of segments"

/-- Status-unmarshal oracle: two decodable stored values, all else fails. -/
def demoUnmarshalStatus : String → Option UserStatus :=
  fun v =>
    if v = "ACTIVE" then some { isActive := true }
    else if v = "INACTIVE" then some { isActive := false }
    else none

/-- JSON-parse oracle: `"PERMS"` decodes to an object whose `permissions`
field is the two-element array `["p:q:r", 5]` (second element not a string);
all else fails to parse. -/
def demoJsonParse : String → Option Json :=
  fun v =>
    if v = "PERMS" then
      some (.obj [("permissions", .arr [.str "p:q:r", .num 5])])
    else none

/-- Store with every key absent. -/
def storeAbsent : Store := ⟨fun _ => .nil⟩

/-- Client over the all-absent store. -/
def clientAbsent : Client :=
  { config := demoConfig, store := storeAbsent, jwtParse := demoJwtParse,
    jsonParse := demoJsonParse, unmarshalUserStatus := demoUnmarshalStatus }

/-- Store holding an inactive status for `u1` and a force-logout marker at
unix second 150. -/
def storeInactive : Store :=
  ⟨fun k =>
    if k = "user:status:u1" then .found "INACTIVE"
    else if k = "user:force_logout:u1" then .found "150"
    else .nil⟩

/-- Client over `storeInactive`. -/
def clientInactive : Client := { clientAbsent with store := storeInactive }

/-- Store holding an active status for `u1`, a force-logout marker at unix
second 150, and a decodable dynamic-permission entry. -/
def storeActive : Store :=
  ⟨fun k =>
    if k = "user:status:u1" then .found "ACTIVE"
    else if k = "user:force_logout:u1" then .found "150"
    else if k = "user:dynamic_permissions:u1" then .found "PERMS"
    else .nil⟩

/-- Client over `storeActive`. -/
def clientActive : Client := { clientAbsent with store := storeActive }

/-! ## Helper lemmas -/

theorem resolve_inactive_eq (c : Client) (tok : String) (claims : Claims)
    (htok : ValidateToken c tok = .ok claims)
    (hact : resolvedIsActive c claims.userID = false) :
    ValidateTokenWithDynamicAuth c tok =
      .ok { claims := claims, dynamicPermissions := [], isActive := false,
            shouldForceLogout := false } := by
  simp only [resolvedIsActive] at hact
  simp only [ValidateTokenWithDynamicAuth, htok]
  rw [hact]
  rfl

theorem resolve_active_eq (c : Client) (tok : String) (claims : Claims)
    (htok : ValidateToken c tok = .ok claims)
    (hact : resolvedIsActive c claims.userID = true) :
    ValidateTokenWithDynamicAuth c tok =
      .ok { claims := claims,
            dynamicPermissions :=
              match GetUserDynamicPermissions c claims.userID with
              | .error _ => claims.permissions
              | .ok ps => ps,
            isActive := true,
            shouldForceLogout :=
              if (CheckForceLogout c claims.userID claims.issuedAtUnix).2.isSome then false
              else (CheckForceLogout c claims.userID claims.issuedAtUnix).1 } := by
  simp only [resolvedIsActive] at hact
  simp only [ValidateTokenWithDynamicAuth, htok]
  rw [hact]
  rfl

/-! ## Claim theorems -/

/-- C3: for every input token string and every store behaviour, resolution
(`ValidateTokenWithDynamicAuth`) succeeds exactly when token verification
(`ValidateToken`) succeeds, and any resolution error is the wrapped
verification error — store-related failures are absorbed into defaults and
never propagate as errors. -/
theorem resolve_error_only_from_verification (c : Client) (tok : String) :
    exceptIsOk (ValidateTokenWithDynamicAuth c tok) = exceptClaimsIsOk (ValidateToken c tok) ∧
    ∀ e, ValidateTokenWithDynamicAuth c tok = .error e →
      ∃ e2, ValidateToken c tok = .error e2 ∧ e = "token validation failed: " ++ e2 := by
  cases h : ValidateToken c tok with
  | error e2 =>
    constructor
    · simp [ValidateTokenWithDynamicAuth, h, exceptIsOk, exceptClaimsIsOk]
    · intro e he
      simp only [ValidateTokenWithDynamicAuth, h, Except.error.injEq] at he
      exact ⟨e2, rfl, he.symm⟩
  | ok claims =>
    have hok : ∃ r, ValidateTokenWithDynamicAuth c tok = .ok r := by
      cases hact : resolvedIsActive c claims.userID with
      | false => exact ⟨_, resolve_inactive_eq c tok claims h hact⟩
      | true => exact ⟨_, resolve_active_eq c tok claims h hact⟩
    obtain ⟨r, hr⟩ := hok
    constructor
    · simp [hr, h, exceptIsOk, exceptClaimsIsOk]
    · intro e he
      rw [hr] at he
      exact absurd he (by simp)

/-- C3 witness at a concrete input: the resolver's error on the malformed
token `"zzz"` is exactly the wrapped verification error. -/
theorem resolve_error_only_from_verification_witness :
    ∃ e2, ValidateToken clientAbsent "zzz" = .error e2 ∧
      "token validation failed: failed to parse token: token contains an invalid number of segments" =
        "token validation failed: " ++ e2 :=
  (resolve_error_only_from_verification clientAbsent "zzz").2
    "token validation failed: failed to parse token: token contains an invalid number of segments"
    (by decide)

/-- C5: for every valid token whose stored account status decodes to
inactive, resolution short-circuits with `is_active = false`,
`should_force_logout = false` and empty effective permissions, for every
behaviour of the store at the force-logout and dynamic-permission keys. -/
theorem inactive_short_circuit (c : Client) (tok : String) (claims : Claims)
    (val : String) (st : UserStatus)
    (htok : ValidateToken c tok = .ok claims)
    (hget : c.store.get ("user:status:" ++ claims.userID) = .found val)
    (hdec : c.unmarshalUserStatus val = some st)
    (hinact : st.isActive = false) :
    ValidateTokenWithDynamicAuth c tok =
      .ok { claims := claims, dynamicPermissions := [], isActive := false,
            shouldForceLogout := false } := by
  have hact : resolvedIsActive c claims.userID = false := by
    simp [resolvedIsActive, CheckUserStatus, hget, hdec, hinact]
  exact resolve_inactive_eq c tok claims htok hact

/-- C5 witness: over `storeInactive` the demo token resolves to the
short-circuited result. -/
theorem inactive_short_circuit_witness :
    ValidateTokenWithDynamicAuth clientInactive "x" =
      .ok { claims := demoClaims, dynamicPermissions := [], isActive := false,
            shouldForceLogout := false } :=
  inactive_short_circuit clientInactive "x" demoClaims "INACTIVE" { isActive := false }
    (by decide) (by decide) (by decide) (by decide)

/-- C6: for every valid token, the resolved `is_active` is `true` when the
status key is absent, when the store read fails, and when the stored value is
undecodable; when the value decodes, `is_active` equals the stored
`IsActive`. -/
theorem status_resolution (c : Client) (tok : String) (claims : Claims)
    (htok : ValidateToken c tok = .ok claims) :
    (c.store.get ("user:status:" ++ claims.userID) = .nil →
       ∃ r, ValidateTokenWithDynamicAuth c tok = .ok r ∧ r.isActive = true) ∧
    (∀ e, c.store.get ("user:status:" ++ claims.userID) = .err e →
       ∃ r, ValidateTokenWithDynamicAuth c tok = .ok r ∧ r.isActive = true) ∧
    (∀ v, c.store.get ("user:status:" ++ claims.userID) = .found v →
       c.unmarshalUserStatus v = none →
       ∃ r, ValidateTokenWithDynamicAuth c tok = .ok r ∧ r.isActive = true) ∧
    (∀ v st, c.store.get ("user:status:" ++ claims.userID) = .found v →
       c.unmarshalUserStatus v = some st →
       ∃ r, ValidateTokenWithDynamicAuth c tok = .ok r ∧ r.isActive = st.isActive) := by
  refine ⟨?_, ?_, ?_, ?_⟩
  · intro hget
    have hact : resolvedIsActive c claims.userID = true := by
      simp [resolvedIsActive, CheckUserStatus, hget]
    exact ⟨_, resolve_active_eq c tok claims htok hact, rfl⟩
  · intro e hget
    have hact : resolvedIsActive c claims.userID = true := by
      simp [resolvedIsActive, CheckUserStatus, hget]
    exact ⟨_, resolve_active_eq c tok claims htok hact, rfl⟩
  · intro v hget hdec
    have hact : resolvedIsActive c claims.userID = true := by
      simp [resolvedIsActive, CheckUserStatus, hget, hdec]
    exact ⟨_, resolve_active_eq c tok claims htok hact, rfl⟩
  · intro v st hget hdec
    have hact : resolvedIsActive c claims.userID = st.isActive := by
      simp [resolvedIsActive, CheckUserStatus, hget, hdec]
    cases hb : st.isActive with
    | false => exact ⟨_, resolve_inactive_eq c tok claims htok (hact.trans hb), rfl⟩
    | true => exact ⟨_, resolve_active_eq c tok claims htok (hact.trans hb), rfl⟩

/-- C6 witness: with the status key absent the demo token resolves with
`is_active = true`. -/
theorem status_resolution_witness :
    ∃ r, ValidateTokenWithDynamicAuth clientAbsent "x" = .ok r ∧ r.isActive = true :=
  (status_resolution clientAbsent "x" demoClaims (by decide)).1 (by decide)

/-- C1 exhibit: for the valid demo token (embedded permissions `["a:b:c"]`)
whose dynamic-permission entry is absent from the store, the resolver returns
`effective_permissions = []` — the token's embedded permissions are *not*
restored, contradicting the documented fallback. -/
theorem absent_dynamic_entry_empty_permissions :
    clientAbsent.store.get "user:dynamic_permissions:u1" = .nil ∧
    demoClaims.permissions = ["a:b:c"] ∧
    ValidateTokenWithDynamicAuth clientAbsent "x" =
      .ok { claims := demoClaims, dynamicPermissions := [], isActive := true,
            shouldForceLogout := false } ∧
    ([] : List String) ≠ demoClaims.permissions :=
  ⟨rfl, rfl, by decide, by decide⟩

/-- C2 counterexample: `matches_any({"admin:*:*"}, ["cdn:zones:write",
"dns:zones:read"])` is `false` on the code — `admin` matches neither `cdn`
nor `dns` in the first segment — not `true` as the claim's example states. -/
theorem matchesAny_admin_example :
    matchesAny ["admin:*:*"] ["cdn:zones:write", "dns:zones:read"] = false := by
  decide

/-- C2 (amended): `matches_any` returns true iff some entry of the required
list is matched by the held set under the matcher rules; for the held set
`{"admin:*:*"}` and list `["cdn:zones:write", "dns:zones:read"]` it returns
`false`, since `admin:*:*` wildcard-matches neither entry. -/
theorem matchesAny_iff_specMatches :
    (∀ held required, matchesAny held required = true ↔ ∃ r ∈ required, SpecMatches held r) ∧
    matchesAny ["admin:*:*"] ["cdn:zones:write", "dns:zones:read"] = false := by
  constructor
  · intro held required
    unfold matchesAny
    rw [List.any_eq_true]
    constructor
    · rintro ⟨r, hr, hc⟩
      exact ⟨r, hr, (checkPermission_iff held r).mp hc⟩
    · rintro ⟨r, hr, hc⟩
      exact ⟨r, hr, (checkPermission_iff held r).mpr hc⟩
  · decide

/-- C4 counterexample: a valid token whose subject has the decodable marker
`150 > issued_at = 100` but an inactive account resolves with
`should_force_logout = false`, against the claim's unconditional iff. -/
theorem forceLogout_inactive_counterexample :
    clientInactive.store.get "user:force_logout:u1" = .found "150" ∧
    goParseInt64 "150" = some 150 ∧ ((150 : Int) > demoClaims.issuedAtUnix) ∧
    ValidateTokenWithDynamicAuth clientInactive "x" =
      .ok { claims := demoClaims, dynamicPermissions := [], isActive := false,
            shouldForceLogout := false } :=
  ⟨rfl, by decide, by decide, by decide⟩

/-- C4 (amended): for every valid token whose account status resolves active,
`should_force_logout` is `true` iff a decodable marker is strictly greater
than the token's issued-at; an absent marker, a failed read, or an
undecodable value defaults it to `false`. -/
theorem forceLogout_resolution (c : Client) (tok : String) (claims : Claims)
    (htok : ValidateToken c tok = .ok claims)
    (hact : resolvedIsActive c claims.userID = true) :
    ∃ r, ValidateTokenWithDynamicAuth c tok = .ok r ∧
      ((c.store.get ("user:force_logout:" ++ claims.userID) = .nil →
          r.shouldForceLogout = false) ∧
       (∀ e, c.store.get ("user:force_logout:" ++ claims.userID) = .err e →
          r.shouldForceLogout = false) ∧
       (∀ v, c.store.get ("user:force_logout:" ++ claims.userID) = .found v →
          goParseInt64 v = none → r.shouldForceLogout = false) ∧
       (∀ v ts, c.store.get ("user:force_logout:" ++ claims.userID) = .found v →
          goParseInt64 v = some ts →
          (r.shouldForceLogout = true ↔ ts > claims.issuedAtUnix))) := by
  refine ⟨_, resolve_active_eq c tok claims htok hact, ?_, ?_, ?_, ?_⟩
  · intro hget
    simp [CheckForceLogout, hget]
  · intro e hget
    simp [CheckForceLogout, hget]
  · intro v hget hp
    simp [CheckForceLogout, hget, hp]
  · intro v ts hget hp
    simp [CheckForceLogout, hget, hp]

/-- C4 witness: over `storeActive` (active status, marker `"150"`, token
issued at 100) the resolved `should_force_logout` obeys all four cases. -/
theorem forceLogout_resolution_witness :
    ∃ r, ValidateTokenWithDynamicAuth clientActive "x" = .ok r ∧
      ((clientActive.store.get ("user:force_logout:" ++ demoClaims.userID) = .nil →
          r.shouldForceLogout = false) ∧
       (∀ e, clientActive.store.get ("user:force_logout:" ++ demoClaims.userID) = .err e →
          r.shouldForceLogout = false) ∧
       (∀ v, clientActive.store.get ("user:force_logout:" ++ demoClaims.userID) = .found v →
          goParseInt64 v = none → r.shouldForceLogout = false) ∧
       (∀ v ts, clientActive.store.get ("user:force_logout:" ++ demoClaims.userID) = .found v →
          goParseInt64 v = some ts →
          (r.shouldForceLogout = true ↔ ts > demoClaims.issuedAtUnix))) :=
  forceLogout_resolution clientActive "x" demoClaims (by decide) (by decide)

/-- C7: a segment-wise wildcard match succeeds only with equal segment counts
and every held segment the wildcard or equal to the corresponding required
segment; the three spec examples evaluate as stated. -/
theorem wildcard_segmentwise :
    (∀ u r, matchesWildcardPermission u r = true →
       (stringsSplit u ':').length = (stringsSplit r ':').length ∧
       ∀ pr ∈ (stringsSplit u ':').zip (stringsSplit r ':'), pr.1 = "*" ∨ pr.1 = pr.2) ∧
    checkPermission ["cdn:*:*"] "cdn:zones:write" = true ∧
    checkPermission ["cdn:*:*"] "dns:zones:write" = false ∧
    checkPermission ["cdn:zones:*"] "cdn:zones:write:extra" = false := by
  refine ⟨?_, by decide, by decide, by decide⟩
  intro u r h
  exact ((matchesWildcardPermission_iff u r).mp h).2

/-- C7 witness: the segment-count/segment-wise consequence instantiated at
`cdn:*:*` against `cdn:zones:write`. -/
theorem wildcard_segmentwise_witness :
    matchesWildcardPermission "cdn:*:*" "cdn:zones:write" = true ∧
    ((stringsSplit "cdn:*:*" ':').length = (stringsSplit "cdn:zones:write" ':').length ∧
     ∀ pr ∈ (stringsSplit "cdn:*:*" ':').zip (stringsSplit "cdn:zones:write" ':'),
       pr.1 = "*" ∨ pr.1 = pr.2) :=
  ⟨by decide, wildcard_segmentwise.1 "cdn:*:*" "cdn:zones:write" (by decide)⟩

/-- C8: a token that parses with `token.Valid = true` (signature, algorithm
and expiry checks inside the parser all passed) is still rejected whenever
its issuer claim differs from the configured issuer. -/
theorem issuer_mismatch_rejected (c : Client) (tok : String) (claims : Claims)
    (hparse : c.jwtParse (stripBearer tok) = .ok (claims, true))
    (hiss : claims.issuer ≠ c.config.issuer) :
    ValidateToken c tok = .error "invalid token issuer" := by
  unfold ValidateToken
  rw [hparse]
  simp [hiss]

/-- C8 witness: the demo token `"y"` parses validly with issuer
`other-service` against configured issuer `auth-service` and is rejected. -/
theorem issuer_mismatch_rejected_witness :
    ValidateToken clientAbsent "y" = .error "invalid token issuer" :=
  issuer_mismatch_rejected clientAbsent "y" demoClaimsBadIssuer (by decide) (by decide)

/-- C9 counterexample: for `t = "Bearer x"` — a string itself starting with
the scheme prefix — prefixing one more `"Bearer "` changes the result of
`ValidateToken`, because only one prefix is stripped before parsing. -/
theorem bearer_double_strip_counterexample :
    ValidateToken clientAbsent ("Bearer " ++ "Bearer x") ≠
      ValidateToken clientAbsent "Bearer x" := by
  decide

/-- C9 (amended): for every token string `t` that does not itself start with
`"Bearer "`, `ValidateToken` on `"Bearer " ++ t` equals `ValidateToken` on
`t`: the verifier strips exactly one leading scheme prefix before parsing. -/
theorem bearer_strip_once (c : Client) (t : String)
    (h : "Bearer ".data.isPrefixOf t.data = false) :
    ValidateToken c ("Bearer " ++ t) = ValidateToken c t := by
  have hp : "Bearer ".data.isPrefixOf ("Bearer " ++ t).data = true := by
    rw [String.data_append, List.isPrefixOf_iff_prefix]
    exact List.prefix_append _ _
  have hd : ("Bearer " ++ t).data.drop ("Bearer ".data.length) = t.data := by
    rw [String.data_append, List.drop_left]
  have h1 : stripBearer ("Bearer " ++ t) = t := by
    unfold stripBearer
    rw [if_pos hp, hd]
  have h2 : stripBearer t = t := by
    unfold stripBearer
    rw [h]
    simp
  unfold ValidateToken
  rw [h1, h2]

/-- C9 witness: for the plain token string `"x"` the two calls agree. -/
theorem bearer_strip_once_witness :
    ("Bearer ".data.isPrefixOf "x".data = false) ∧
    ValidateToken clientAbsent ("Bearer " ++ "x") = ValidateToken clientAbsent "x" :=
  ⟨by decide, bearer_strip_once clientAbsent "x" (by decide)⟩

/-- C10: when the stored dynamic-permission value decodes to an object whose
`permissions` field is an array, the call succeeds with a list of exactly the
array's length, and every non-string element is replaced by `""`. -/
theorem dynamic_permissions_array_decode (c : Client) (userID val : String)
    (fields : List (String × Json)) (xs : List Json)
    (hget : c.store.get ("user:dynamic_permissions:" ++ userID) = .found val)
    (hparse : c.jsonParse val = some (.obj fields))
    (hperm : lookupLast fields "permissions" = some (.arr xs)) :
    GetUserDynamicPermissions c userID = .ok (xs.map goStringOrEmpty) ∧
    (xs.map goStringOrEmpty).length = xs.length ∧
    ∀ v ∈ xs, (∀ s, v ≠ .str s) → goStringOrEmpty v = "" := by
  refine ⟨?_, by simp, ?_⟩
  · simp [GetUserDynamicPermissions, hget, hparse, jsonToMap, hperm]
  · intro v _ hv
    cases v with
    | str s => exact absurd rfl (hv s)
    | null => rfl
    | boolean b => rfl
    | num n => rfl
    | arr es => rfl
    | obj fs => rfl

/-- C10 witness: over `storeActive` the two-element array `["p:q:r", 5]`
decodes to the two-element list with the non-string slot empty. -/
theorem dynamic_permissions_array_decode_witness :
    GetUserDynamicPermissions clientActive "u1" =
      .ok (([Json.str "p:q:r", Json.num 5]).map goStringOrEmpty) ∧
    (([Json.str "p:q:r", Json.num 5]).map goStringOrEmpty).length =
      ([Json.str "p:q:r", Json.num 5]).length ∧
    ∀ v ∈ [Json.str "p:q:r", Json.num 5], (∀ s, v ≠ .str s) → goStringOrEmpty v = "" :=
  dynamic_permissions_array_decode clientActive "u1" "PERMS"
    [("permissions", Json.arr [Json.str "p:q:r", Json.num 5])]
    [Json.str "p:q:r", Json.num 5] rfl rfl rfl

end AuthSDK
